import Mathlib

/-!
Shallow embedding of the rpc4django dispatch core
(src/rpc4django/jsonrpcdispatcher.py, src/rpc4django/rpcdispatcher.py,
src/rpc4django/exceptions.py) together with proofs checking the
natural-language specification against it.

Modelling choices:
* Python values that can flow through the dispatcher are modelled by
  `PyVal`.  The constructor `PyVal.nonser` stands for a Python object that
  the configured JSON codec cannot serialize; every other constructor is a
  plain JSON-representable value.
* `json_dumps` models `json.dumps(..., cls=self.json_encoder)`: it succeeds
  exactly when no unserializable object occurs in the value, and we
  represent a successful serialization by the value itself (the textual
  rendering with its 4-space indent is cosmetic and carries no structure).
* `json.loads` is external library code; its possible outcomes are
  abstracted by `RawBody`: a falsy body, a body that raises `ValueError`
  on decoding, or a successfully decoded value.
* Python exceptions raised by a handler are modelled by `PyError`:
  either an `RpcException` instance (carrying the class name, the
  class-level `code` attribute and a `message`) or any other exception
  (carrying the class name and `e.message`).
* Calling `f(*params)` on a callable whose positional parameter count
  differs from `len(params)` raises `TypeError` before the body runs;
  `callPy` reproduces that Python calling convention.
-/

namespace Rpc4Django

/-- A Python value as seen by the dispatcher.  `nonser` is an object that
the configured JSON codec fails to serialize; all other constructors are
JSON-representable. -/
inductive PyVal where
  | null : PyVal
  | bool (b : Bool) : PyVal
  | num (n : Int) : PyVal
  | str (s : String) : PyVal
  | list (xs : List PyVal) : PyVal
  | dict (fields : List (String × PyVal)) : PyVal
  | nonser (tag : String) : PyVal

mutual

/-- Whether the configured JSON codec can serialize the value:
true exactly when no `nonser` object occurs inside it. -/
def serializable : PyVal → Bool
  | .null => true
  | .bool _ => true
  | .num _ => true
  | .str _ => true
  | .list xs => serializableList xs
  | .dict fs => serializableFields fs
  | .nonser _ => false

/-- Serializability of every element of a list. -/
def serializableList : List PyVal → Bool
  | [] => true
  | x :: xs => serializable x && serializableList xs

/-- Serializability of every value of a dict. -/
def serializableFields : List (String × PyVal) → Bool
  | [] => true
  | (_, v) :: fs => serializable v && serializableFields fs

end

/-- Models `json.dumps(v, indent=JSON_INDENT, cls=self.json_encoder)`:
returns the value when the codec can serialize it (the rendered text is
isomorphic to the value), and fails (raises) otherwise. -/
def json_dumps (v : PyVal) : Option PyVal :=
  if serializable v then some v else none

/-- Lookup in a Python dict built by inserting the listed bindings in
order (later bindings overwrite earlier ones, hence the last match). -/
def dictGet {α : Type} (fields : List (String × α)) (k : String) : Option α :=
  (fields.reverse.find? (fun p => p.1 == k)).map (fun p => p.2)

/-- Overwrite-or-append insertion, the semantics of `d[k] = v` on a
Python dict represented as its binding list. -/
def dictSet {α : Type} (fields : List (String × α)) (k : String) (v : α) :
    List (String × α) :=
  if fields.any (fun p => p.1 == k) then
    fields.map (fun p => if p.1 == k then (k, v) else p)
  else
    fields ++ [(k, v)]

/-- An `RpcException` instance as raised inside the dispatcher or by a
handler: the class name, the class-level `code` attribute and the
`message` (src/rpc4django/exceptions.py). -/
structure RpcError where
  exceptionName : String
  code : Int
  message : String
deriving Repr, DecidableEq

/-- `BadDataException(msg)` — code 101. -/
def badDataError (msg : String) : RpcError :=
  { exceptionName := "BadDataException", code := 101, message := msg }

/-- `BadMethodException(msg)` — code 102. -/
def badMethodError (msg : String) : RpcError :=
  { exceptionName := "BadMethodException", code := 102, message := msg }

/-- `UnknownProcessingError(msg)` — code 104. -/
def unknownProcessingError (msg : String) : RpcError :=
  { exceptionName := "UnknownProcessingError", code := 104, message := msg }

/-- `BadParamsException(msg)` — code 201. -/
def badParamsError (msg : String) : RpcError :=
  { exceptionName := "BadParamsException", code := 201, message := msg }

/-- A Python exception escaping a handler call: either an
`RpcException` instance, or any other exception carrying its class
name and `e.message`. -/
inductive PyError where
  | rpc (e : RpcError) : PyError
  | other (kindName message : String) : PyError
deriving Repr, DecidableEq

/-- The error dict `_encode_result` builds from an `RpcException`
(jsonrpcdispatcher.py lines 52-58). -/
def errorDict (e : RpcError) : PyVal :=
  .dict [("name", .str "JSONRPCError"),
         ("exception", .str e.exceptionName),
         ("code", .num e.code),
         ("message", .str e.message)]

/-- The response envelope `_encode_result` builds before serializing it
(jsonrpcdispatcher.py lines 59-63). -/
def envelopePy (api_call_id : PyVal) (result : Option PyVal)
    (error : Option RpcError) : PyVal :=
  .dict [("id", api_call_id),
         ("result", result.getD .null),
         ("error", (error.map errorDict).getD .null)]

/-- The fixed degraded error dict used when serialization fails
(jsonrpcdispatcher.py lines 67-72). -/
def degradedErrorDict : PyVal :=
  .dict [("message", .str "Failed to encode return value"),
         ("code", .num 100),
         ("name", .str "JSONRPCError"),
         ("exception", .str "RpcException")]

/-- The degraded envelope produced when the first serialization attempt
fails (jsonrpcdispatcher.py lines 73-77). -/
def degradedEnvelope (api_call_id : PyVal) : PyVal :=
  .dict [("id", api_call_id), ("result", .null), ("error", degradedErrorDict)]

/-- `JSONRPCDispatcher._encode_result` (jsonrpcdispatcher.py lines 49-78):
build the envelope, try to serialize it; on failure serialize the fixed
degraded envelope instead.  `none` models the (second) `json.dumps`
itself raising. -/
def _encode_result (api_call_id : PyVal) (result : Option PyVal)
    (error : Option RpcError) : Option PyVal :=
  match json_dumps (envelopePy api_call_id result error) with
  | some s => some s
  | none => json_dumps (degradedEnvelope api_call_id)

/-- A Python callable as the dispatcher sees it: its `__name__`
(`func_name`), the attributes possibly attached by the `rpcmethod`
decorator (`external_name`, `signature` — `none` models the attribute
being absent, i.e. `hasattr` false), the formal parameter names reported
by `inspect.getargspec`, the number of positional arguments the call
`f(*params)` accepts, and the behaviour of the call itself. -/
structure PyMethod where
  funcName : String
  externalName : Option String
  sigAttr : Option (List String)
  argNames : List String
  arity : Nat
  call : List PyVal → Except PyError PyVal

/-- The Python call `method(*params, **kwargs)`: if the number of
positional arguments differs from what the callable declares, Python
raises `TypeError` before the body runs; otherwise the body runs and
either returns a value or raises. -/
def callPy (m : PyMethod) (params : List PyVal) : Except PyError PyVal :=
  if params.length = m.arity then
    m.call params
  else
    .error (.other "TypeError"
      (m.funcName ++ "() takes exactly " ++ toString m.arity ++
        " arguments (" ++ toString params.length ++ " given)"))

/-- `JSONRPCDispatcher` state: the `methods` dict mapping external
names to callables (jsonrpcdispatcher.py line 38). -/
structure JSONRPCDispatcher where
  methods : List (String × PyMethod)

/-- `JSONRPCDispatcher.register_function` (jsonrpcdispatcher.py lines
40-46): `self.methods[external_name] = method`. -/
def register_function (d : JSONRPCDispatcher) (method : PyMethod)
    (external_name : String) : JSONRPCDispatcher :=
  { methods := dictSet d.methods external_name method }

/-- The possible outcomes of reading and `json.loads`-decoding the raw
request body: a falsy body (empty string or `None`), a body on which
`json.loads` raises `ValueError`, or a successfully decoded value. -/
inductive RawBody where
  | empty : RawBody
  | malformed : RawBody
  | value (v : PyVal) : RawBody

/-- `JSONRPCDispatcher.dispatch` (jsonrpcdispatcher.py lines 81-138).
Follows the source control flow: the checks raise `BadDataException` or
`BadMethodException`, the handler call may raise anything, and the two
`except` clauses at the bottom encode an `RpcException` as itself and
any other exception as `UnknownProcessingError` with message
`%s: %s % (class name, e.message)`.  `api_call_id` starts as the empty
string and is reassigned from the decoded dict once available. -/
def dispatch (d : JSONRPCDispatcher) (json_data : RawBody) : Option PyVal :=
  match json_data with
  | .empty =>
      _encode_result (.str "") none (some (badDataError "No POST data"))
  | .malformed =>
      _encode_result (.str "") none (some (badDataError "JSON decoding error"))
  | .value jsonval =>
      match jsonval with
      | .dict jsondict =>
          let api_call_id := (dictGet jsondict "id").getD (.str "")
          match dictGet jsondict "method", dictGet jsondict "params" with
          | some methodval, some paramsval =>
              match methodval with
              | .str methodname =>
                  match paramsval with
                  | .list params =>
                      match dictGet d.methods methodname with
                      | some meth =>
                          match callPy meth params with
                          | .ok result =>
                              _encode_result api_call_id (some result) none
                          | .error (.rpc e) =>
                              _encode_result api_call_id none (some e)
                          | .error (.other kindName msg) =>
                              _encode_result api_call_id none
                                (some (unknownProcessingError
                                  (kindName ++ ": " ++ msg)))
                      | none =>
                          _encode_result api_call_id none
                            (some (badMethodError
                              ("Called method " ++ methodname ++
                                " does not exist in this api, see system.listMethods")))
                  | _ =>
                      _encode_result api_call_id none
                        (some (badMethodError "JSON method params has to be Array"))
              | _ =>
                  _encode_result api_call_id none
                    (some (badMethodError "JSON Wrong parameter method"))
          | _, _ =>
              _encode_result api_call_id none
                (some (badDataError "JSON must contain attributes method and params"))
      | _ =>
          _encode_result (.str "") none
            (some (badDataError "JSON does not contain dict as its root object"))

/-- An `RPCMethod` descriptor (rpcdispatcher.py lines 75-145), restricted
to the attributes the dispatch and registration logic reads: the wrapped
callable, the derived external name, the reflected argument list and the
derived signature.  The help text, permission and login flags and the
authentication and authorization hooks are request-layer collaborators
that never interact with name or signature derivation nor with
registration, and are outside this embedding. -/
structure RPCMethod where
  method : PyMethod
  name : String
  args : List String
  signature : List String

/-- The reflected argument list `[arg for arg in args if arg != "self"]`
of `RPCMethod.__init__` (rpcdispatcher.py line 133). -/
def reflectedArgs (method : PyMethod) : List String :=
  method.argNames.filter (fun a => a ≠ "self")

/-- `RPCMethod.__init__` (rpcdispatcher.py lines 97-145): derive the
external name (the attached `external_name` attribute if present, else
the passed `name`, else `func_name`), the argument list
(`reflectedArgs`), and the signature (the attached `signature`
attribute when its length is `len(args) + 1`, else the passed signature
when its length is `len(args) + 1`, else all-`object`). -/
def mkRPCMethod (method : PyMethod) (name : Option String)
    (signature : Option (List String)) : RPCMethod :=
  let nm :=
    match method.externalName with
    | some en => en
    | none =>
        match name with
        | some n => n
        | none => method.funcName
  let args := reflectedArgs method
  let defaultSig : List String := "object" :: args.map (fun _ => "object")
  let sig :=
    match method.sigAttr with
    | some s =>
        if s.length = args.length + 1 then s
        else
          match signature with
          | some s2 => if args.length + 1 = s2.length then s2 else defaultSig
          | none => defaultSig
    | none =>
        match signature with
        | some s2 => if args.length + 1 = s2.length then s2 else defaultSig
        | none => defaultSig
  { method := method, name := nm, args := args, signature := sig }

/-- `RPCDispatcher` state (rpcdispatcher.py lines 224-229): the list of
registered `RPCMethod` descriptors and the inner `JSONRPCDispatcher`. -/
structure RPCDispatcher where
  rpcmethods : List RPCMethod
  jsonrpcdispatcher : JSONRPCDispatcher

/-- `RPCDispatcher.system_listmethods` (rpcdispatcher.py lines 290-298):
collect the names of the registered methods and sort them.  Python
`list.sort()` on strings is a stable sort under the case-sensitive
lexicographic order, modelled by `List.mergeSort`. -/
def system_listmethods (d : RPCDispatcher) : List String :=
  (d.rpcmethods.map RPCMethod.name).mergeSort

/-- `RPCDispatcher.register_method` (rpcdispatcher.py lines 404-429):
build the descriptor; if its name is not among the already registered
names, register the callable with the inner JSONRPC dispatcher and
append the descriptor, otherwise do nothing. -/
def register_method (d : RPCDispatcher) (method : PyMethod)
    (name : Option String) (signature : Option (List String)) : RPCDispatcher :=
  let meth := mkRPCMethod method name signature
  if meth.name ∈ system_listmethods d then d
  else
    { rpcmethods := d.rpcmethods ++ [meth],
      jsonrpcdispatcher :=
        register_function d.jsonrpcdispatcher method meth.name }

/-- The check `isinstance(x, StringTypes)` from the validate step. -/
def isString : PyVal → Bool
  | .str _ => true
  | _ => false

/-- The check `isinstance(x, list)` from the validate step. -/
def isArray : PyVal → Bool
  | .list _ => true
  | _ => false

/-- The check `isinstance(x, dict)` from the decode step. -/
def isDict : PyVal → Bool
  | .dict _ => true
  | _ => false

/-! Helper lemmas about serialization of envelopes. -/

lemma serializable_errorDict (e : RpcError) : serializable (errorDict e) = true := by
  simp [errorDict, serializable, serializableFields]

lemma serializable_envelopePy (idv : PyVal) (r : Option PyVal)
    (err : Option RpcError) :
    serializable (envelopePy idv r err) =
      (serializable idv && serializable (r.getD .null)) := by
  cases r <;> cases err <;>
    simp [envelopePy, errorDict, serializable, serializableFields]

lemma serializable_degradedEnvelope (idv : PyVal) :
    serializable (degradedEnvelope idv) = serializable idv := by
  simp [degradedEnvelope, degradedErrorDict, serializable, serializableFields]

/-- When the id and the result are serializable, `_encode_result`
serializes the envelope on the first attempt. -/
lemma encode_result_eq (idv : PyVal) (r : Option PyVal) (err : Option RpcError)
    (hid : serializable idv = true) (hr : serializable (r.getD .null) = true) :
    _encode_result idv r err = some (envelopePy idv r err) := by
  simp [_encode_result, json_dumps, serializable_envelopePy, hid, hr]

/-- Special case of `encode_result_eq` for error envelopes (no result). -/
lemma encode_error_eq (idv : PyVal) (e : RpcError)
    (hid : serializable idv = true) :
    _encode_result idv none (some e) = some (envelopePy idv none (some e)) :=
  encode_result_eq idv none (some e) hid (by simp [serializable])

/-- When the result cannot be serialized but the id can, `_encode_result`
falls back to the degraded envelope. -/
lemma encode_result_degraded (idv : PyVal) (r : Option PyVal)
    (err : Option RpcError) (hid : serializable idv = true)
    (hr : serializable (r.getD .null) = false) :
    _encode_result idv r err = some (degradedEnvelope idv) := by
  simp [_encode_result, json_dumps, serializable_envelopePy, hid, hr,
    serializable_degradedEnvelope]

/-- C3: a raw body that is empty or absent, or that does not parse as
JSON, or that parses to a value that is not an object, makes `dispatch`
return a BadData error envelope (code 101) with echoed id the empty
string, and the registered handlers never influence these paths (the
result is the same as for a dispatcher with no methods at all). -/
theorem C3_decode_failures (d : JSONRPCDispatcher) :
    dispatch d .empty =
      some (envelopePy (.str "") none (some (badDataError "No POST data"))) ∧
    dispatch d .malformed =
      some (envelopePy (.str "") none (some (badDataError "JSON decoding error"))) ∧
    (∀ v : PyVal, isDict v = false →
      dispatch d (.value v) =
        some (envelopePy (.str "") none
          (some (badDataError "JSON does not contain dict as its root object")))) ∧
    (∀ m, (badDataError m).code = 101) ∧
    dispatch d .empty = dispatch ⟨[]⟩ .empty ∧
    dispatch d .malformed = dispatch ⟨[]⟩ .malformed ∧
    (∀ v : PyVal, isDict v = false →
      dispatch d (.value v) = dispatch ⟨[]⟩ (.value v)) := by
  have hid : serializable (.str "") = true := by simp [serializable]
  have hnotdict : ∀ (d' : JSONRPCDispatcher) (v : PyVal), isDict v = false →
      dispatch d' (.value v) =
        some (envelopePy (.str "") none
          (some (badDataError "JSON does not contain dict as its root object"))) := by
    intro d' v hv
    cases v <;> simp [isDict] at hv <;>
      simp [dispatch, encode_error_eq _ _ hid]
  refine ⟨?_, ?_, hnotdict d, fun m => rfl, rfl, rfl, ?_⟩
  · simp [dispatch, encode_error_eq _ _ hid]
  · simp [dispatch, encode_error_eq _ _ hid]
  · intro v hv
    rw [hnotdict d v hv, hnotdict ⟨[]⟩ v hv]

/-- Witness for C3 at concrete inputs. -/
theorem C3_decode_failures_witness :
    dispatch ⟨[]⟩ RawBody.empty =
      some (envelopePy (.str "") none (some (badDataError "No POST data"))) ∧
    dispatch ⟨[]⟩ (.value (.num 7)) =
      some (envelopePy (.str "") none
        (some (badDataError "JSON does not contain dict as its root object"))) :=
  ⟨(C3_decode_failures ⟨[]⟩).1, (C3_decode_failures ⟨[]⟩).2.2.1 (.num 7) rfl⟩

/-- C2: for a body parsed to an object, the id is extracted first and
defaults to the empty string when absent; a missing `method` or `params`
key gives a BadData envelope (code 101); a non-string `method` or a
non-array `params` gives a BadMethod envelope (code 102); an
unregistered method name gives a BadMethod envelope whose message names
the attempted method; and every such envelope echoes the extracted
id. -/
theorem C2_validate_failures (d : JSONRPCDispatcher)
    (jsondict : List (String × PyVal))
    (hid : serializable ((dictGet jsondict "id").getD (.str "")) = true) :
    (dictGet jsondict "id" = none →
      (dictGet jsondict "id").getD (.str "") = .str "") ∧
    ((dictGet jsondict "method" = none ∨ dictGet jsondict "params" = none) →
      dispatch d (.value (.dict jsondict)) =
        some (envelopePy ((dictGet jsondict "id").getD (.str "")) none
          (some (badDataError "JSON must contain attributes method and params")))) ∧
    (∀ mv pv, dictGet jsondict "method" = some mv →
      dictGet jsondict "params" = some pv → isString mv = false →
      dispatch d (.value (.dict jsondict)) =
        some (envelopePy ((dictGet jsondict "id").getD (.str "")) none
          (some (badMethodError "JSON Wrong parameter method")))) ∧
    (∀ s pv, dictGet jsondict "method" = some (.str s) →
      dictGet jsondict "params" = some pv → isArray pv = false →
      dispatch d (.value (.dict jsondict)) =
        some (envelopePy ((dictGet jsondict "id").getD (.str "")) none
          (some (badMethodError "JSON method params has to be Array")))) ∧
    (∀ s xs, dictGet jsondict "method" = some (.str s) →
      dictGet jsondict "params" = some (.list xs) →
      dictGet d.methods s = none →
      dispatch d (.value (.dict jsondict)) =
        some (envelopePy ((dictGet jsondict "id").getD (.str "")) none
          (some (badMethodError
            ("Called method " ++ s ++
              " does not exist in this api, see system.listMethods"))))) ∧
    (∀ m, (badDataError m).code = 101) ∧
    (∀ m, (badMethodError m).code = 102) := by
  refine ⟨?_, ?_, ?_, ?_, ?_, fun m => rfl, fun m => rfl⟩
  · intro h
    rw [h]
    rfl
  · intro h
    rcases h with h | h
    · simp [dispatch, h, encode_error_eq _ _ hid]
    · cases hm : dictGet jsondict "method" <;>
        simp [dispatch, h, hm, encode_error_eq _ _ hid]
  · intro mv pv hm hp hmv
    cases mv <;> simp [isString] at hmv <;>
      simp [dispatch, hm, hp, encode_error_eq _ _ hid]
  · intro s pv hm hp hpv
    cases pv <;> simp [isArray] at hpv <;>
      simp [dispatch, hm, hp, encode_error_eq _ _ hid]
  · intro s xs hm hp hlook
    simp [dispatch, hm, hp, hlook, encode_error_eq _ _ hid]

/-- Witness for C2 at a concrete input: the unregistered method `nope`
with echoed id `x`. -/
theorem C2_validate_failures_witness :
    dispatch ⟨[]⟩ (.value (.dict
        [("id", .str "x"), ("method", .str "nope"), ("params", .list [])])) =
      some (envelopePy (.str "x") none
        (some (badMethodError
          "Called method nope does not exist in this api, see system.listMethods"))) := by
  have h := (C2_validate_failures ⟨[]⟩
    [("id", .str "x"), ("method", .str "nope"), ("params", .list [])]
    (by rw [show (dictGet [("id", PyVal.str "x"), ("method", PyVal.str "nope"),
        ("params", PyVal.list [])] "id").getD (.str "") = PyVal.str "x" from rfl]
        simp [serializable])).2.2.2.2.1 "nope" [] rfl rfl rfl
  simpa using h

/-- C1: a well-formed request naming a registered method whose call
returns a (serializable) value yields the envelope that echoes the
request id, has a null error, and carries exactly the returned value as
the result. -/
theorem C1_dispatch_success (d : JSONRPCDispatcher)
    (jsondict : List (String × PyVal)) (mname : String)
    (params : List PyVal) (meth : PyMethod) (v : PyVal)
    (hid : serializable ((dictGet jsondict "id").getD (.str "")) = true)
    (hm : dictGet jsondict "method" = some (.str mname))
    (hp : dictGet jsondict "params" = some (.list params))
    (hreg : dictGet d.methods mname = some meth)
    (harity : params.length = meth.arity)
    (hcall : meth.call params = .ok v)
    (hv : serializable v = true) :
    dispatch d (.value (.dict jsondict)) =
      some (envelopePy ((dictGet jsondict "id").getD (.str "")) (some v) none) := by
  simp [dispatch, hm, hp, hreg, callPy, harity, hcall,
    encode_result_eq _ (some v) none hid (by simpa using hv)]

/-- The `add` handler of the specification examples: a two-argument
callable registered as `a + b`. -/
def addMethod : PyMethod where
  funcName := "add"
  externalName := none
  sigAttr := none
  argNames := ["a", "b"]
  arity := 2
  call := fun params =>
    match params with
    | [.num a, .num b] => .ok (.num (a + b))
    | _ => .error (.other "TypeError" "unsupported operand type")

/-- Witness for C1: dispatching `id y, method add, params [2, 3]`
against a dispatcher holding `addMethod` yields id `y`, result `5`,
error null. -/
theorem C1_dispatch_success_witness :
    dispatch ⟨[("add", addMethod)]⟩ (.value (.dict
        [("id", .str "y"), ("method", .str "add"),
         ("params", .list [.num 2, .num 3])])) =
      some (envelopePy (.str "y") (some (.num 5)) none) := by
  have h := C1_dispatch_success ⟨[("add", addMethod)]⟩
    [("id", .str "y"), ("method", .str "add"),
     ("params", .list [.num 2, .num 3])]
    "add" [.num 2, .num 3] addMethod (.num 5)
    (by rw [show (dictGet [("id", PyVal.str "y"), ("method", PyVal.str "add"),
        ("params", PyVal.list [.num 2, .num 3])] "id").getD (.str "") =
          PyVal.str "y" from rfl]
        simp [serializable])
    rfl rfl rfl rfl rfl (by simp [serializable])
  simpa using h

/-- C4: a handler that raises an `RpcException` has its own class name,
code and message encoded into the error envelope unchanged; a handler
that raises any other exception is encoded as `UnknownProcessingError`
(code 104) whose message is exactly `<originalKind>: <originalMessage>`,
and the envelope carries nothing else about the original error. -/
theorem C4_handler_errors (d : JSONRPCDispatcher)
    (jsondict : List (String × PyVal)) (mname : String)
    (params : List PyVal) (meth : PyMethod)
    (hid : serializable ((dictGet jsondict "id").getD (.str "")) = true)
    (hm : dictGet jsondict "method" = some (.str mname))
    (hp : dictGet jsondict "params" = some (.list params))
    (hreg : dictGet d.methods mname = some meth) :
    (∀ e : RpcError, callPy meth params = .error (.rpc e) →
      dispatch d (.value (.dict jsondict)) =
        some (envelopePy ((dictGet jsondict "id").getD (.str "")) none (some e))) ∧
    (∀ kindName msg, callPy meth params = .error (.other kindName msg) →
      dispatch d (.value (.dict jsondict)) =
        some (envelopePy ((dictGet jsondict "id").getD (.str "")) none
          (some (unknownProcessingError (kindName ++ ": " ++ msg))))) ∧
    (∀ m, (unknownProcessingError m).code = 104) := by
  refine ⟨?_, ?_, fun m => rfl⟩
  · intro e hcall
    simp [dispatch, hm, hp, hreg, hcall, encode_error_eq _ _ hid]
  · intro kindName msg hcall
    simp [dispatch, hm, hp, hreg, hcall, encode_error_eq _ _ hid]

/-- A handler that always raises `BadParamsException` — a recognized
taxonomy error raised from inside the handler body. -/
def badParamsMethod : PyMethod where
  funcName := "picky"
  externalName := none
  sigAttr := none
  argNames := []
  arity := 0
  call := fun _ => .error (.rpc (badParamsError "wrong params"))

/-- A handler that always raises a `ValueError`, an exception outside
the recognized taxonomy. -/
def valueErrorMethod : PyMethod where
  funcName := "broken"
  externalName := none
  sigAttr := none
  argNames := []
  arity := 0
  call := fun _ => .error (.other "ValueError" "boom")

/-- Witness for C4: the recognized error keeps its code 201 and message;
the unrecognized one becomes code 104 with the formatted message. -/
theorem C4_handler_errors_witness :
    dispatch ⟨[("picky", badParamsMethod)]⟩ (.value (.dict
        [("id", .str "a"), ("method", .str "picky"), ("params", .list [])])) =
      some (envelopePy (.str "a") none (some (badParamsError "wrong params"))) ∧
    dispatch ⟨[("broken", valueErrorMethod)]⟩ (.value (.dict
        [("id", .str "b"), ("method", .str "broken"), ("params", .list [])])) =
      some (envelopePy (.str "b") none
        (some (unknownProcessingError "ValueError: boom"))) := by
  constructor
  · have h := (C4_handler_errors ⟨[("picky", badParamsMethod)]⟩
      [("id", .str "a"), ("method", .str "picky"), ("params", .list [])]
      "picky" [] badParamsMethod
      (by rw [show (dictGet [("id", PyVal.str "a"), ("method", PyVal.str "picky"),
          ("params", PyVal.list [])] "id").getD (.str "") = PyVal.str "a" from rfl]
          simp [serializable])
      rfl rfl rfl).1 (badParamsError "wrong params") rfl
    simpa using h
  · have h := (C4_handler_errors ⟨[("broken", valueErrorMethod)]⟩
      [("id", .str "b"), ("method", .str "broken"), ("params", .list [])]
      "broken" [] valueErrorMethod
      (by rw [show (dictGet [("id", PyVal.str "b"), ("method", PyVal.str "broken"),
          ("params", PyVal.list [])] "id").getD (.str "") = PyVal.str "b" from rfl]
          simp [serializable])
      rfl rfl rfl).2.1 "ValueError" "boom" rfl
    simpa using h

/-- C10: a request that passes decode and validation and names a
registered method, but whose params count differs from the positional
parameter count the callable declares, produces an
`UnknownProcessingError` envelope with code 104: the `TypeError` raised
by the Python call is outside the taxonomy and gets wrapped, rather
than surfacing as BadMethod (102) or BadParams (201). -/
theorem C10_arity_mismatch (d : JSONRPCDispatcher)
    (jsondict : List (String × PyVal)) (mname : String)
    (params : List PyVal) (meth : PyMethod)
    (hid : serializable ((dictGet jsondict "id").getD (.str "")) = true)
    (hm : dictGet jsondict "method" = some (.str mname))
    (hp : dictGet jsondict "params" = some (.list params))
    (hreg : dictGet d.methods mname = some meth)
    (harity : params.length ≠ meth.arity) :
    dispatch d (.value (.dict jsondict)) =
      some (envelopePy ((dictGet jsondict "id").getD (.str "")) none
        (some (unknownProcessingError
          ("TypeError: " ++ meth.funcName ++ "() takes exactly " ++
            toString meth.arity ++ " arguments (" ++
            toString params.length ++ " given)")))) ∧
    (unknownProcessingError "").code = 104 ∧
    (unknownProcessingError "").code ≠ (badMethodError "").code ∧
    (unknownProcessingError "").code ≠ (badParamsError "").code := by
  refine ⟨?_, rfl, by decide, by decide⟩
  simp [dispatch, hm, hp, hreg, callPy, harity, encode_error_eq _ _ hid,
    String.append_assoc]

/-- Witness for C10: calling the two-argument `add` with a single
parameter is answered by an UnknownProcessing (104) envelope wrapping
the `TypeError`. -/
theorem C10_arity_mismatch_witness :
    dispatch ⟨[("add", addMethod)]⟩ (.value (.dict
        [("id", .str "z"), ("method", .str "add"),
         ("params", .list [.num 1])])) =
      some (envelopePy (.str "z") none
        (some (unknownProcessingError
          "TypeError: add() takes exactly 2 arguments (1 given)"))) := by
  have h := (C10_arity_mismatch ⟨[("add", addMethod)]⟩
    [("id", .str "z"), ("method", .str "add"), ("params", .list [.num 1])]
    "add" [.num 1] addMethod
    (by rw [show (dictGet [("id", PyVal.str "z"), ("method", PyVal.str "add"),
        ("params", PyVal.list [.num 1])] "id").getD (.str "") =
          PyVal.str "z" from rfl]
        simp [serializable])
    rfl rfl rfl (by decide)).1
  simpa using h

/-- C9: whenever serializing the response envelope fails, the fixed
degraded envelope (id, null result, error with name JSONRPCError,
exception RpcException, code 100, message `Failed to encode return
value`) is returned instead, both at the `_encode_result` level and
through `dispatch` when a handler returns an unserializable value; and
producing the degraded envelope itself always succeeds. -/
theorem C9_encode_fallback :
    (∀ (api_call_id : PyVal) (result : Option PyVal) (error : Option RpcError),
      serializable api_call_id = true →
      (json_dumps (envelopePy api_call_id result error) = none →
        _encode_result api_call_id result error =
          some (degradedEnvelope api_call_id)) ∧
      json_dumps (degradedEnvelope api_call_id) =
        some (degradedEnvelope api_call_id) ∧
      (_encode_result api_call_id result error).isSome = true) ∧
    (∀ (d : JSONRPCDispatcher) (jsondict : List (String × PyVal))
        (mname : String) (params : List PyVal) (meth : PyMethod) (v : PyVal),
      serializable ((dictGet jsondict "id").getD (.str "")) = true →
      dictGet jsondict "method" = some (.str mname) →
      dictGet jsondict "params" = some (.list params) →
      dictGet d.methods mname = some meth →
      params.length = meth.arity →
      meth.call params = .ok v →
      serializable v = false →
      dispatch d (.value (.dict jsondict)) =
        some (degradedEnvelope ((dictGet jsondict "id").getD (.str "")))) ∧
    (∀ idv : PyVal, degradedEnvelope idv =
      .dict [("id", idv), ("result", .null),
             ("error", .dict [("message", .str "Failed to encode return value"),
                              ("code", .num 100),
                              ("name", .str "JSONRPCError"),
                              ("exception", .str "RpcException")])]) := by
  refine ⟨?_, ?_, fun idv => rfl⟩
  · intro api_call_id result error hid
    refine ⟨?_, ?_, ?_⟩
    · intro h
      have hf : serializable (envelopePy api_call_id result error) = false := by
        simpa [json_dumps] using h
      simp [_encode_result, json_dumps, hf, serializable_degradedEnvelope, hid]
    · simp [json_dumps, serializable_degradedEnvelope, hid]
    · rcases hdump : serializable (envelopePy api_call_id result error) with _ | _
      · simp [_encode_result, json_dumps, hdump,
          serializable_degradedEnvelope, hid]
      · simp [_encode_result, json_dumps, hdump]
  · intro d jsondict mname params meth v hid hm hp hreg harity hcall hv
    simp [dispatch, hm, hp, hreg, callPy, harity, hcall,
      encode_result_degraded _ (some v) none hid (by simpa using hv)]

/-- A zero-argument handler returning an object the JSON codec cannot
serialize. -/
def nonserMethod : PyMethod where
  funcName := "handle"
  externalName := none
  sigAttr := none
  argNames := []
  arity := 0
  call := fun _ => .ok (.nonser "socket object")

/-- Witness for C9: a handler returning an unserializable object makes
dispatch produce the degraded envelope. -/
theorem C9_encode_fallback_witness :
    dispatch ⟨[("handle", nonserMethod)]⟩ (.value (.dict
        [("id", .str "w"), ("method", .str "handle"), ("params", .list [])])) =
      some (degradedEnvelope (.str "w")) ∧
    _encode_result (.str "w") (some (.nonser "socket object")) none =
      some (degradedEnvelope (.str "w")) := by
  constructor
  · have h := C9_encode_fallback.2.1 ⟨[("handle", nonserMethod)]⟩
      [("id", .str "w"), ("method", .str "handle"), ("params", .list [])]
      "handle" [] nonserMethod (.nonser "socket object")
      (by rw [show (dictGet [("id", PyVal.str "w"), ("method", PyVal.str "handle"),
          ("params", PyVal.list [])] "id").getD (.str "") = PyVal.str "w" from rfl]
          simp [serializable])
      rfl rfl rfl rfl rfl rfl
    simpa using h
  · have h := (C9_encode_fallback.1 (.str "w") (some (.nonser "socket object"))
      none (by simp [serializable])).1 rfl
    exact h

/-- A callable carrying a decorator-attached name, used to exhibit the
actual name-derivation precedence. -/
def metaNamedMethod : PyMethod where
  funcName := "realname"
  externalName := some "meta.name"
  sigAttr := none
  argNames := []
  arity := 0
  call := fun _ => .ok .null

/-- Counterexample to C5 as stated: when both an explicit override and
an attached metadata name are present, the constructed descriptor takes
the attached metadata name, not the explicit override. -/
theorem C5_name_precedence_counterexample :
    (mkRPCMethod metaNamedMethod (some "explicit.name") none).name = "meta.name" ∧
    "meta.name" ≠ "explicit.name" :=
  ⟨rfl, by decide⟩

/-- C5 (amended): the external name is derived with the precedence
attached metadata name first, then the explicit override passed to
registration, then the callable's own identifier. -/
theorem C5_name_precedence (method : PyMethod) (name : Option String)
    (signature : Option (List String)) :
    (∀ en, method.externalName = some en →
      (mkRPCMethod method name signature).name = en) ∧
    (method.externalName = none → ∀ n, name = some n →
      (mkRPCMethod method name signature).name = n) ∧
    (method.externalName = none → name = none →
      (mkRPCMethod method name signature).name = method.funcName) := by
  refine ⟨?_, ?_, ?_⟩ <;> intros <;> simp [mkRPCMethod, *]

/-- Witness for C5 (amended): with no attached name the explicit
override is used, and with neither the identifier is used. -/
theorem C5_name_precedence_witness :
    (mkRPCMethod addMethod (some "math.add") none).name = "math.add" ∧
    (mkRPCMethod addMethod none none).name = "add" :=
  ⟨(C5_name_precedence addMethod (some "math.add") none).2.1 rfl "math.add" rfl,
   (C5_name_precedence addMethod none none).2.2 rfl rfl⟩

/-- C8: the signature is chosen with the precedence attached metadata
signature of length `len(args) + 1` first, then an explicit registration
signature of that length, then the all-`object` default; wrong-length
signatures are silently discarded. -/
theorem C8_signature_precedence (method : PyMethod) (name : Option String)
    (signature : Option (List String)) :
    (∀ s, method.sigAttr = some s →
      s.length = (reflectedArgs method).length + 1 →
      (mkRPCMethod method name signature).signature = s) ∧
    (∀ s2, (∀ s, method.sigAttr = some s →
        s.length ≠ (reflectedArgs method).length + 1) →
      signature = some s2 →
      s2.length = (reflectedArgs method).length + 1 →
      (mkRPCMethod method name signature).signature = s2) ∧
    ((∀ s, method.sigAttr = some s →
        s.length ≠ (reflectedArgs method).length + 1) →
     (∀ s2, signature = some s2 →
        s2.length ≠ (reflectedArgs method).length + 1) →
      (mkRPCMethod method name signature).signature =
        "object" :: (reflectedArgs method).map (fun _ => "object")) := by
  refine ⟨?_, ?_, ?_⟩
  · intro s hs hlen
    simp only [mkRPCMethod, hs]
    rw [if_pos hlen]
  · intro s2 hno hsig hlen
    cases h : method.sigAttr with
    | none =>
        simp only [mkRPCMethod, h, hsig]
        rw [if_pos hlen.symm]
    | some s =>
        have hs := hno s h
        simp only [mkRPCMethod, h, hsig]
        rw [if_neg hs, if_pos hlen.symm]
  · intro hno hno2
    cases h : method.sigAttr with
    | none =>
        cases h2 : signature with
        | none => simp only [mkRPCMethod, h, h2]
        | some s2 =>
            have hs2 := hno2 s2 h2
            simp only [mkRPCMethod, h, h2]
            rw [if_neg (fun hc => hs2 (Eq.symm hc))]
    | some s =>
        have hs := hno s h
        cases h2 : signature with
        | none =>
            simp only [mkRPCMethod, h, h2]
            rw [if_neg hs]
        | some s2 =>
            have hs2 := hno2 s2 h2
            simp only [mkRPCMethod, h, h2]
            rw [if_neg hs, if_neg (fun hc => hs2 (Eq.symm hc))]

/-- A callable whose decorator attached a correct-length signature. -/
def sigMethod : PyMethod where
  funcName := "mul"
  externalName := none
  sigAttr := some ["int", "int", "int"]
  argNames := ["a", "b"]
  arity := 2
  call := fun _ => .ok .null

/-- A callable whose decorator attached a wrong-length signature. -/
def badSigMethod : PyMethod where
  funcName := "mul"
  externalName := none
  sigAttr := some ["int"]
  argNames := ["a", "b"]
  arity := 2
  call := fun _ => .ok .null

/-- Witness for C8: a correct-length attached signature is used, and a
wrong-length attached signature is silently discarded in favour of the
default. -/
theorem C8_signature_precedence_witness :
    (mkRPCMethod sigMethod none none).signature = ["int", "int", "int"] ∧
    (mkRPCMethod badSigMethod none none).signature =
      ["object", "object", "object"] := by
  constructor
  · exact (C8_signature_precedence sigMethod none none).1
      ["int", "int", "int"] rfl rfl
  · have h := (C8_signature_precedence badSigMethod none none).2.2
      (fun s hs => by
        simp [badSigMethod] at hs
        subst hs
        decide)
      (fun s2 hs2 => by simp at hs2)
    simpa using h

/-- Membership in the sorted name list equals membership in the
registered descriptor names. -/
lemma mem_system_listmethods (d : RPCDispatcher) (x : String) :
    x ∈ system_listmethods d ↔ x ∈ d.rpcmethods.map RPCMethod.name :=
  (List.mergeSort_perm (d.rpcmethods.map RPCMethod.name) _).mem_iff

/-- C7: for every registry state, `system.listMethods` returns exactly
the registered external names, sorted ascending under the
case-sensitive lexicographic string order. -/
theorem C7_listmethods_sorted (d : RPCDispatcher) :
    List.Sorted (fun a b : String => a ≤ b) (system_listmethods d) ∧
    (system_listmethods d).Perm (d.rpcmethods.map RPCMethod.name) := by
  constructor
  · simpa [system_listmethods] using
      List.sorted_mergeSort' (α := String) (d.rpcmethods.map RPCMethod.name)
  · exact List.mergeSort_perm _ _

/-- C6: registering a second method whose derived external name
collides with an earlier registration leaves the whole dispatcher state
untouched (so lookup, listMethods and dispatch keep reflecting only the
first registration), and in particular the sorted name list is
unchanged. -/
theorem C6_duplicate_registration (d : RPCDispatcher)
    (m1 m2 : PyMethod) (n1 n2 : Option String) (s1 s2 : Option (List String))
    (hname : (mkRPCMethod m2 n2 s2).name = (mkRPCMethod m1 n1 s1).name) :
    register_method (register_method d m1 n1 s1) m2 n2 s2 =
      register_method d m1 n1 s1 ∧
    system_listmethods (register_method (register_method d m1 n1 s1) m2 n2 s2) =
      system_listmethods (register_method d m1 n1 s1) := by
  have hmem : (mkRPCMethod m2 n2 s2).name ∈
      system_listmethods (register_method d m1 n1 s1) := by
    rw [hname, mem_system_listmethods]
    by_cases hc : (mkRPCMethod m1 n1 s1).name ∈ system_listmethods d
    · simp only [register_method, if_pos hc]
      exact (mem_system_listmethods d _).mp hc
    · simp [register_method, if_neg hc]
  have hstate : register_method (register_method d m1 n1 s1) m2 n2 s2 =
      register_method d m1 n1 s1 := by
    conv_lhs => rw [register_method]
    rw [if_pos hmem]
  exact ⟨hstate, by rw [hstate]⟩

/-- Witness for C6: registering `addMethod` twice on the empty
dispatcher equals registering it once. -/
theorem C6_duplicate_registration_witness :
    register_method (register_method ⟨[], ⟨[]⟩⟩ addMethod none none)
        addMethod none none =
      register_method ⟨[], ⟨[]⟩⟩ addMethod none none :=
  (C6_duplicate_registration ⟨[], ⟨[]⟩⟩ addMethod addMethod
    none none none none rfl).1

end Rpc4Django
